import Mathlib

/-
  Verification development for the pylegend pandas-api window-compilation core.

  The Python sources under pylegend/core/tds/pandas_api and
  pylegend/core/language/pandas_api are shallowly embedded below: pure Python
  functions become Lean functions, raising code returns Except values, and the
  mutable per-instance fields of the applied-function compilers are threaded as
  explicit state.  External collaborators that are not part of the in-scope
  sources (identifier quoting, the sub-query wrapping helper, the table-scan
  base frame, the shared primitive-collection aggregates and the lag/lead row
  rendering) are modelled from the specification; each such definition carries
  a doc comment starting with "Modelled from the spec:".
-/

namespace Pylegend

/-! ## Python-side string helpers -/

/-- Modelled from the spec: the identifier-quoting policy of the default SQL
dialect (`db_extension.quote_identifier`), which wraps a raw name in double
quotes.  The quoting helper itself lives outside the in-scope sources. -/
def quote_identifier (s : String) : String := "\"" ++ s ++ "\""

/-- Modelled from the spec: `escape_column_name` from the shared language
helpers (outside the in-scope sources).  Column names made of alphanumerics
and underscores are left bare; any other name is wrapped in single quotes,
as seen in the expression-language scenarios of the spec. -/
def escape_column_name (s : String) : String :=
  if s.toList.all (fun c => c.isAlphanum || c == '_') then s
  else "\x27" ++ s ++ "\x27"

/-- Modelled from the spec: `generate_pure_lambda` from the shared language
helpers (outside the in-scope sources); renders a lambda literal of the
expression language. -/
def generate_pure_lambda (params body : String) : String :=
  "\x7b" ++ params ++ " | " ++ body ++ "\x7d"

/-- Python `repr` of a string value (single-quoted). -/
def py_str_repr (s : String) : String := "\x27" ++ s ++ "\x27"

/-- Python `repr`/f-string rendering of a list of strings. -/
def py_str_list_repr (xs : List String) : String :=
  "[" ++ String.intercalate ", " (xs.map py_str_repr) ++ "]"

/-- Lexicographic comparison of character lists by code point (the order
Python uses to compare strings). -/
def char_list_lt : List Char → List Char → Bool
  | [], [] => false
  | [], _ :: _ => true
  | _ :: _, [] => false
  | a :: as, b :: bs =>
      if a.toNat < b.toNat then true
      else if b.toNat < a.toNat then false
      else char_list_lt as bs

/-- Python string `<` (lexicographic by code point). -/
def py_str_lt (a b : String) : Bool := char_list_lt a.data b.data

/-- Python `str.lower()` (per character; the names occurring here are ASCII). -/
def py_lower (s : String) : String := String.mk (s.data.map Char.toLower)

/-- Stable insertion of a string into a sorted list (helper for `py_sorted`). -/
def py_insert (x : String) : List String → List String
  | [] => [x]
  | y :: ys => if py_str_lt x y then x :: y :: ys else y :: py_insert x ys

/-- Python `sorted` on a list of strings (lexicographic by code point). -/
def py_sorted : List String → List String
  | [] => []
  | x :: xs => py_insert x (py_sorted xs)

/-! ## Python exceptions -/

inductive PyError where
  | notImplementedError (msg : String)
  | typeError (msg : String)
  | valueError (msg : String)
  | attributeError (msg : String)
  | runtimeError (msg : String)
deriving DecidableEq, Repr

/-! ## SQL metamodel (query-tree nodes consumed by the downstream renderer) -/

inductive SortItemOrdering where
  | ascending | descending
deriving DecidableEq, Repr

inductive SortItemNullOrdering where
  | undefined | first | last
deriving DecidableEq, Repr

inductive WindowFrameMode where
  | range | rows
deriving DecidableEq, Repr

inductive FrameBoundType where
  | unboundedPreceding | preceding | currentRow | following | unboundedFollowing
deriving DecidableEq, Repr

structure FrameBound where
  type_ : FrameBoundType
  value : Option Int
deriving DecidableEq, Repr

structure WindowFrame where
  mode : WindowFrameMode
  start : FrameBound
  end_ : Option FrameBound
deriving DecidableEq, Repr

/-- SQL expressions; the window of a `WindowExpression` node is inlined as the
three fields (partitions, orderBy, windowFrame) of the constructor. -/
inductive SqlExpression where
  | integerLiteral (n : Int)
  | qualifiedNameReference (parts : List String)
  | functionCall (name : String) (args : List SqlExpression)
  | arithmeticSubtract (left right : SqlExpression)
  | windowExpression (nested : SqlExpression)
      (partitions : List SqlExpression)
      (orderBy : List (SqlExpression × SortItemOrdering × SortItemNullOrdering))
      (windowFrame : Option WindowFrame)

/-- The `Window` node produced by `PandasApiWindow.to_sql_node`. -/
structure Window where
  partitions : List SqlExpression
  orderBy : List (SqlExpression × SortItemOrdering × SortItemNullOrdering)
  windowFrame : Option WindowFrame

/-- `WindowExpression(nested=..., window=...)` from the metamodel extension. -/
def SqlExpression.windowExpr (nested : SqlExpression) (w : Window) : SqlExpression :=
  .windowExpression nested w.partitions w.orderBy w.windowFrame

/-- A `SingleColumn` select item (alias is stored already quoted, as in the
Python sources which store `db_extension.quote_identifier(...)` results). -/
structure SingleColumn where
  alias_ : String
  expression : SqlExpression

/-- A `QuerySpecification`: select items, distinct flag, a from-clause that is
either a base table (list of name parts, aliased "root") or a nested
sub-query with its alias, group-by expressions and pagination. -/
inductive QuerySpecification where
  | mk (selectItems : List SingleColumn)
       (distinct : Bool)
       (fromTable : List String)
       (fromSub : Option (QuerySpecification × String))
       (groupBy : List SqlExpression)
       (offset : Option Int)
       (limit : Option Int)

def QuerySpecification.selectItems : QuerySpecification → List SingleColumn
  | .mk s _ _ _ _ _ _ => s

def QuerySpecification.distinct : QuerySpecification → Bool
  | .mk _ d _ _ _ _ _ => d

def QuerySpecification.fromTable : QuerySpecification → List String
  | .mk _ _ t _ _ _ _ => t

def QuerySpecification.fromSub : QuerySpecification → Option (QuerySpecification × String)
  | .mk _ _ _ s _ _ _ => s

def QuerySpecification.groupBy : QuerySpecification → List SqlExpression
  | .mk _ _ _ _ g _ _ => g

def QuerySpecification.offset : QuerySpecification → Option Int
  | .mk _ _ _ _ _ o _ => o

def QuerySpecification.limit : QuerySpecification → Option Int
  | .mk _ _ _ _ _ _ l => l

def QuerySpecification.withSelectItems (q : QuerySpecification)
    (items : List SingleColumn) : QuerySpecification :=
  match q with
  | .mk _ d t s g o l => .mk items d t s g o l

def QuerySpecification.withGroupBy (q : QuerySpecification)
    (gb : List SqlExpression) : QuerySpecification :=
  match q with
  | .mk i d t s _ o l => .mk i d t s gb o l

/-- Modelled from the spec: the sub-query-wrapping helper `create_sub_query`
(outside the in-scope sources).  It nests the given query under a fresh alias
scope: every select item of the inner query reappears as a reference
`"<label>"."<alias>"` under the same alias, and all other clauses are reset. -/
def create_sub_query (q : QuerySpecification) (label : String) : QuerySpecification :=
  .mk (q.selectItems.map fun item =>
        ⟨item.alias_, .qualifiedNameReference [quote_identifier label, item.alias_]⟩)
      false [] (some (q, label)) [] none none

/-- Modelled from the spec: `copy_query` (outside the in-scope sources) makes a
deep copy of a query; with value semantics this is the identity. -/
def copy_query (q : QuerySpecification) : QuerySpecification := q

/-! ## Frames and columns -/

/-- A `TdsColumn`: name and declared primitive type.  The declared type is the
string returned by `get_type()` ("Integer", "Float", "Number", "String", ...),
matching how `DiffFunction.validate` compares it. -/
structure TdsColumn where
  name : String
  type_ : String
deriving DecidableEq, Repr

/-- Modelled from the spec: the textual form of a `TdsColumn` (its `__str__`,
outside the in-scope sources) names the column and its declared type; used in
the diff type-mismatch message. -/
def TdsColumn.str (c : TdsColumn) : String :=
  "TdsColumn(Name: " ++ c.name ++ ", Type: " ++ c.type_ ++ ")"

/-- Modelled from the spec: a table-spec input frame
(`PandasApiTableSpecInputFrame`, outside the in-scope sources): a base table
with an ordered list of typed columns. -/
structure TableFrame where
  schema : String
  table : String
  columns : List TdsColumn
deriving DecidableEq, Repr

/-- Modelled from the spec: `to_sql_query_object` of a table-spec input frame
produces a fresh table-scan query selecting each column as
`"root".<col> AS "<col>"` from `<schema>.<table> AS "root"` (shape pinned by
the concrete scenarios of spec section 8). -/
def TableFrame.to_sql_query_object (f : TableFrame) : QuerySpecification :=
  .mk (f.columns.map fun c =>
        ⟨quote_identifier c.name,
         .qualifiedNameReference [quote_identifier "root", c.name]⟩)
      false [f.schema, f.table] none [] none none

/-- Modelled from the spec: `to_pure` of a table-spec input frame renders the
table literal of the expression language. -/
def TableFrame.to_pure (f : TableFrame) : String :=
  "#Table(" ++ f.schema ++ "." ++ f.table ++ ")#"

/-- A pandas-api frame as seen by the applied-function compilers: either an
ungrouped base frame or a grouped frame (base frame + grouping columns +
optional explicit column selection). -/
inductive PandasFrame where
  | base (t : TableFrame)
  | grouped (t : TableFrame) (groupingColumns : List TdsColumn)
      (selectedColumns : Option (List TdsColumn))
deriving DecidableEq, Repr

/-- The underlying base frame (`base_frame()` / `get_true_base_frame`). -/
def PandasFrame.true_base : PandasFrame → TableFrame
  | .base t => t
  | .grouped t _ _ => t

def PandasFrame.grouping_names : PandasFrame → List String
  | .base _ => []
  | .grouped _ g _ => g.map TdsColumn.name

/-! ## Pandas-api window descriptor (pandas_api_custom_expressions.py) -/

inductive PandasApiSortDirection where
  | asc | desc
deriving DecidableEq, Repr

/-- The state of a constructed `PandasApiSortInfo` /
`PandasApiDirectSortInfo`: a column name, a direction and a null ordering. -/
structure PandasApiSortInfo where
  column : String
  direction : PandasApiSortDirection
  nullOrdering : SortItemNullOrdering
deriving DecidableEq, Repr

/-- `PandasApiDirectSortInfo.__init__`: takes the column name directly. -/
def PandasApiDirectSortInfo.init (column_name : String)
    (direction : PandasApiSortDirection)
    (null_ordering : SortItemNullOrdering := .undefined) : PandasApiSortInfo :=
  ⟨column_name, direction, null_ordering⟩

/-- The first argument of `PandasApiSortInfo.__init__`: the declared type is
`PyLegendColumnExpression` (whose `get_column()` yields the column name), but
some call sites pass a plain Python string instead. -/
inductive SortInfoArg where
  | columnExpr (column : String)
  | plainStr (s : String)
deriving DecidableEq, Repr

/-- `PandasApiSortInfo.__init__`: calls `column_expr.get_column()` on its first
argument.  A plain string has no `get_column` attribute, so that call raises
`AttributeError`. -/
def PandasApiSortInfo.init (column_expr : SortInfoArg)
    (direction : PandasApiSortDirection)
    (null_ordering : SortItemNullOrdering := .undefined) :
    Except PyError PandasApiSortInfo :=
  match column_expr with
  | .columnExpr c => .ok ⟨c, direction, null_ordering⟩
  | .plainStr _ =>
      .error (.attributeError
        "\x27str\x27 object has no attribute \x27get_column\x27")

inductive PandasApiFrameBoundType where
  | unboundedPreceding | preceding | currentRow | following | unboundedFollowing
deriving DecidableEq, Repr

def PandasApiFrameBoundType.to_sql_node : PandasApiFrameBoundType → FrameBoundType
  | .unboundedPreceding => .unboundedPreceding
  | .preceding => .preceding
  | .currentRow => .currentRow
  | .following => .following
  | .unboundedFollowing => .unboundedFollowing

/-- `PandasApiFrameBound`: bound kind plus optional offset value.  Only integer
literal offsets occur in the in-scope sources, so the value is an `Option Int`. -/
structure PandasApiFrameBound where
  type_ : PandasApiFrameBoundType
  value : Option Int
deriving DecidableEq, Repr

def PandasApiFrameBound.to_sql_node (b : PandasApiFrameBound) : FrameBound :=
  ⟨b.type_.to_sql_node, b.value⟩

/-- `PandasApiFrameBound.__init__` declares two required positional parameters
`(type_, value)` with no default for `value`; a call that supplies only the
bound type therefore raises `TypeError` before the body runs.  This definition
models such a one-argument call site. -/
def PandasApiFrameBound.call_with_missing_value (_ : PandasApiFrameBoundType) :
    Except PyError PandasApiFrameBound :=
  .error (.typeError
    "__init__() missing 1 required positional argument: \x27value\x27")

inductive PandasApiWindowFrameMode where
  | range | rows
deriving DecidableEq, Repr

def PandasApiWindowFrameMode.to_sql_node : PandasApiWindowFrameMode → WindowFrameMode
  | .range => .range
  | .rows => .rows

structure PandasApiWindowFrame where
  mode : PandasApiWindowFrameMode
  start : PandasApiFrameBound
  end_ : Option PandasApiFrameBound
deriving DecidableEq, Repr

def PandasApiWindowFrame.to_sql_node (f : PandasApiWindowFrame) : WindowFrame :=
  ⟨f.mode.to_sql_node, f.start.to_sql_node, f.end_.map PandasApiFrameBound.to_sql_node⟩

/-- `PandasApiWindow`: optional partition columns, optional order-by infos and
an optional window frame. -/
structure PandasApiWindow where
  partitionBy : Option (List String)
  orderBy : Option (List PandasApiSortInfo)
  frame : Option PandasApiWindowFrame
deriving DecidableEq, Repr

/-- `PandasApiSortInfo.__find_column_expression` /
`PandasApiWindow.__find_column_expression`: looks up the select item of the
query whose alias is the quoted column name and returns its expression;
missing columns raise `RuntimeError`. -/
def find_column_expression (q : QuerySpecification) (col : String) :
    Except PyError SqlExpression :=
  match q.selectItems.find? (fun s => s.alias_ == quote_identifier col) with
  | some s => .ok s.expression
  | none => .error (.runtimeError ("Cannot find column: " ++ col))

/-- `PandasApiSortInfo.to_sql_node`. -/
def PandasApiSortInfo.to_sql_node (si : PandasApiSortInfo)
    (q : QuerySpecification) :
    Except PyError (SqlExpression × SortItemOrdering × SortItemNullOrdering) := do
  let key ← find_column_expression q si.column
  .ok (key,
       (match si.direction with
        | .asc => SortItemOrdering.ascending
        | .desc => SortItemOrdering.descending),
       si.nullOrdering)

/-- `PandasApiWindow.to_sql_node`: resolves partitions and order-by columns
against the enclosing query.  Note that the source sets `windowFrame=None`
unconditionally — the descriptor's `frame` field is dropped. -/
def PandasApiWindow.to_sql_node (w : PandasApiWindow) (q : QuerySpecification) :
    Except PyError Window := do
  let parts ← (w.partitionBy.getD []).mapM (find_column_expression q)
  let ob ← (w.orderBy.getD []).mapM (fun si => si.to_sql_node q)
  .ok ⟨parts, ob, none⟩

/-- `PandasApiSortInfo.to_pure_expression`. -/
def PandasApiSortInfo.to_pure_expression (si : PandasApiSortInfo) : String :=
  (match si.direction with
   | .asc => "ascending"
   | .desc => "descending") ++ "(~" ++ escape_column_name si.column ++ ")"

/-- `PandasApiWindow.to_pure_expression`: renders `over(<partitions><sorts>)`.
Note the source renders no frame segment at all — the descriptor's `frame`
field is ignored. -/
def PandasApiWindow.to_pure_expression (w : PandasApiWindow) : String :=
  let partitions_str :=
    match w.partitionBy with
    | none => ""
    | some [] => ""
    | some cols =>
        "~[" ++ String.intercalate ", " (cols.map escape_column_name) ++ "], "
  let sorts_str :=
    match w.orderBy with
    | none => "[]"
    | some [] => "[]"
    | some sis =>
        "[" ++ String.intercalate ", "
          (sis.map PandasApiSortInfo.to_pure_expression) ++ "]"
  "over(" ++ partitions_str ++ sorts_str ++ ")"

/-! ## DiffFunction (diff_function.py) -/

/-- The Python `axis` argument is `Union[int, str]`. -/
inductive AxisV where
  | int (n : Int)
  | str (s : String)
deriving DecidableEq, Repr

/-- Python `repr` of an axis value (`{self.__axis!r}` in the messages). -/
def AxisV.repr : AxisV → String
  | .int n => toString n
  | .str s => py_str_repr s

/-- Offset-row kind used by the diff lambdas (`p.lag(r, n)` / `p.lead(r, n)`). -/
inductive OffsetKind where
  | lag | lead
deriving DecidableEq, Repr

def OffsetKind.sqlName : OffsetKind → String
  | .lag => "lag"
  | .lead => "lead"

/-- The symbolic primitives the diff lambdas build: either a column of an
offset row (`p.lag(r, n)[col]` — the `to_sql` lambda) or the difference of the
current row's column and the offset row's column (the `to_pure` lambda). -/
inductive DiffPrimitive where
  | offsetCol (kind : OffsetKind) (column : String) (offset : Int)
  | diffExpr (column : String) (kind : OffsetKind) (offset : Int)
deriving DecidableEq, Repr

/-- Modelled from the spec: `to_sql_expression` of the offset-row column access
(`PandasApiLagRow` / `PandasApiLeadRow`, outside the in-scope sources) renders
`lag(<resolved column>, <offset>)` / `lead(...)`, resolving the column against
the enclosing query, per the concrete scenario of spec section 8. -/
def DiffPrimitive.to_sql_expression (p : DiffPrimitive)
    (q : QuerySpecification) : Except PyError SqlExpression :=
  match p with
  | .offsetCol k col n => do
      let e ← find_column_expression q col
      .ok (.functionCall k.sqlName [e, .integerLiteral n])
  | .diffExpr col k n => do
      let cur ← find_column_expression q col
      let off ← find_column_expression q col
      .ok (.arithmeticSubtract cur (.functionCall k.sqlName [off, .integerLiteral n]))

/-- Modelled from the spec: `to_pure_expression` of the offset-row column
access renders `$p->lag($r).<col>` (the default offset 1 is omitted). -/
def offset_col_pure (k : OffsetKind) (col : String) (n : Int) : String :=
  "$p->" ++ (match k with | .lag => "lag" | .lead => "lead") ++
    "($r" ++ (if n == 1 then "" else ", " ++ toString n) ++ ")." ++
    escape_column_name col

/-- Modelled from the spec: `to_pure_expression` of the diff primitives; the
subtraction of two nullable numbers wraps both operands in `toOne(...)`. -/
def DiffPrimitive.to_pure_expression : DiffPrimitive → String
  | .offsetCol k col n => offset_col_pure k col n
  | .diffExpr col k n =>
      "toOne($r." ++ escape_column_name col ++ ") - toOne(" ++
        offset_col_pure k col n ++ ")"

/-- The internal zero-column name and temp-column suffix of `DiffFunction`
(both set to the same constant in `__init__`). -/
def diff_zero_column_name : String := "__pylegend_internal_column_name__"

def diff_temp_column_name_suffix : String := "__pylegend_internal_column_name__"

/-- `DiffFunction.calculate_columns`: grouped frame without selection ⇒ all
non-grouping-key base columns; with selection ⇒ the selection; plain frame ⇒
all base columns. -/
def DiffFunction.calculate_columns : PandasFrame → List TdsColumn
  | .base t => t.columns
  | .grouped t g none =>
      t.columns.filter (fun c => !((g.map TdsColumn.name).contains c.name))
  | .grouped _ _ (some sel) => sel

/-- `DiffFunction._construct_column_expression_and_window_tuples`: one
`((column, expression), window)` tuple per target column, where the window
partitions by the grouping columns (when grouped) and orders by the internal
zero column ascending, with no frame. -/
def DiffFunction.construct_column_expression_and_window_tuples
    (fr : PandasFrame) (mkExpr : String → DiffPrimitive) :
    List ((String × DiffPrimitive) × PandasApiWindow) :=
  let column_names := (DiffFunction.calculate_columns fr).map TdsColumn.name
  column_names.map fun cn =>
    let partition_by : Option (List String) :=
      match fr with
      | .grouped _ g _ => some (g.map TdsColumn.name)
      | .base _ => none
    let order_by := PandasApiDirectSortInfo.init diff_zero_column_name .asc
    ((cn, mkExpr cn), ⟨partition_by, some [order_by], none⟩)

/-- The lambda factory of `DiffFunction.to_sql`: `p.lag(r, periods)[col]` for
positive periods, `p.lead(r, -periods)[col]` otherwise. -/
def diff_sql_lambda (periods : Int) (column_name : String) : DiffPrimitive :=
  if periods > 0 then .offsetCol .lag column_name periods
  else .offsetCol .lead column_name (-periods)

/-- The lambda factory of `DiffFunction.to_pure`:
`r[col] - p.lag(r, periods)[col]` / `r[col] - p.lead(r, -periods)[col]`. -/
def diff_pure_lambda (periods : Int) (column_name : String) : DiffPrimitive :=
  if periods > 0 then .diffExpr column_name .lag periods
  else .diffExpr column_name .lead (-periods)

/-- `DiffFunction.to_sql`, as a function of the frame and periods (the method
reads only those fields; the query tree of the base frame is regenerated on
every call). -/
def DiffFunction.to_sql_core (fr : PandasFrame) (periods : Int) :
    Except PyError QuerySpecification := do
  let base := fr.true_base.to_sql_query_object
  let base_query := base.withSelectItems
    (base.selectItems ++
      [⟨quote_identifier diff_zero_column_name, .integerLiteral 0⟩])
  let new_query := create_sub_query base_query "root"
  let kept := base_query.selectItems.dropLast
  let tuples := DiffFunction.construct_column_expression_and_window_tuples fr
    (diff_sql_lambda periods)
  let window_items ← tuples.mapM (fun cw => do
    let col_sql_expr ← cw.1.2.to_sql_expression new_query
    let win ← cw.2.to_sql_node new_query
    .ok (⟨quote_identifier (cw.1.1 ++ diff_temp_column_name_suffix),
          SqlExpression.windowExpr col_sql_expr win⟩ : SingleColumn))
  let new_query := new_query.withSelectItems (kept ++ window_items)
  let new_query := create_sub_query new_query "root"
  let final_items := (DiffFunction.calculate_columns fr).map fun col =>
    (⟨quote_identifier col.name,
      .arithmeticSubtract
        (.qualifiedNameReference
          [quote_identifier "root", quote_identifier col.name])
        (.qualifiedNameReference
          [quote_identifier "root",
           quote_identifier (col.name ++ diff_temp_column_name_suffix)])⟩ :
      SingleColumn)
  .ok (new_query.withSelectItems final_items)

/-- `DiffFunction.to_pure`, as a function of the frame, periods and the
separator policy of the rendering configuration. -/
def DiffFunction.to_pure_core (fr : PandasFrame) (periods : Int)
    (sep : Nat → Bool → String) : String :=
  let tuples := DiffFunction.construct_column_expression_and_window_tuples fr
    (diff_pure_lambda periods)
  let render_single := fun (c : String × DiffPrimitive) =>
    escape_column_name (c.1 ++ diff_temp_column_name_suffix) ++ ":" ++
      generate_pure_lambda "p,w,r" c.2.to_pure_expression
  let extend_0_column :=
    "->extend(~" ++ diff_zero_column_name ++ ":\x7br|0\x7d)"
  let extend_strs := tuples.map fun cw =>
    "->extend(" ++ cw.2.to_pure_expression ++ ", ~" ++ render_single cw.1 ++ ")"
  let extend_str := String.intercalate (sep 1 false) extend_strs
  let project_str :=
    "->project(~[" ++
      String.intercalate ", "
        (tuples.map fun cw =>
          escape_column_name cw.1.1 ++ ":p|$p." ++
            escape_column_name (cw.1.1 ++ diff_temp_column_name_suffix)) ++
      "])"
  fr.true_base.to_pure ++ sep 1 false ++ extend_0_column ++ sep 1 false ++
    extend_str ++ sep 1 false ++ project_str

/-- The mutable state of a `DiffFunction` instance: the constructor arguments
plus the `_column_expression_and_window_tuples` field that `to_sql`/`to_pure`
assign on every call (`none` right after construction). -/
structure DiffState where
  frame : PandasFrame
  periods : Int
  axis : AxisV
  tuples_cache : Option (List ((String × DiffPrimitive) × PandasApiWindow))

/-- `DiffFunction.to_sql` with the instance state threaded explicitly: the
method overwrites `_column_expression_and_window_tuples` and returns the tree. -/
def DiffFunction.to_sql (s : DiffState) :
    Except PyError (QuerySpecification × DiffState) :=
  let cache := DiffFunction.construct_column_expression_and_window_tuples
    s.frame (diff_sql_lambda s.periods)
  (DiffFunction.to_sql_core s.frame s.periods).map fun q =>
    (q, { s with tuples_cache := some cache })

/-- `DiffFunction.to_pure` with the instance state threaded explicitly. -/
def DiffFunction.to_pure (sep : Nat → Bool → String) (s : DiffState) :
    String × DiffState :=
  let cache := DiffFunction.construct_column_expression_and_window_tuples
    s.frame (diff_pure_lambda s.periods)
  (DiffFunction.to_pure_core s.frame s.periods sep,
   { s with tuples_cache := some cache })

/-- The columns of the diff target whose declared type is not Integer, Float
or Number (the `mismatched_columns` list of `DiffFunction.validate`). -/
def diff_mismatched_columns (fr : PandasFrame) : List TdsColumn :=
  (DiffFunction.calculate_columns fr).filter
    (fun c => !(["Integer", "Float", "Number"].contains c.type_))

/-- `DiffFunction.validate`: checks periods, then axis, then column types, and
raises the corresponding exception with the exact message of the source. -/
def DiffFunction.validate (periods : Int) (axis : AxisV) (fr : PandasFrame) :
    Except PyError Bool :=
  if !(([1, -1] : List Int).contains periods) then
    .error (.notImplementedError
      ("The \x27periods\x27 argument of the diff function is only supported for values [1, -1], but got: periods=" ++
        toString periods))
  else if !(axis == .int 0 || axis == .str "index") then
    .error (.notImplementedError
      ("The \x27axis\x27 argument of the diff function must be 0 or \x27index\x27, but got: axis=" ++
        axis.repr))
  else if diff_mismatched_columns fr ≠ [] then
    .error (.typeError
      ("The diff function can only be applied to the following column types: [\x27Integer\x27, \x27Float\x27, \x27Number\x27], but got the following invalid columns: " ++
        py_str_list_repr ((diff_mismatched_columns fr).map TdsColumn.str)))
  else
    .ok true

/-! ## Aggregation normalizer (helper_aggregate.py) -/

/-- The seven canonical aggregate operations of the synonym table. -/
inductive AggOpName where
  | average | sum | min | max | std_dev_sample | variance_sample | count
deriving DecidableEq, Repr

/-- The flattened synonym table `FLATTENED_FUNCTION_MAPPING` (insertion order
of the source dictionary). -/
def flattened_function_mapping : List (String × AggOpName) :=
  [("mean", .average), ("average", .average), ("nanmean", .average),
   ("sum", .sum), ("nansum", .sum),
   ("min", .min), ("amin", .min), ("minimum", .min), ("nanmin", .min),
   ("max", .max), ("amax", .max), ("maximum", .max), ("nanmax", .max),
   ("std", .std_dev_sample), ("std_dev", .std_dev_sample),
   ("nanstd", .std_dev_sample),
   ("var", .variance_sample), ("variance", .variance_sample),
   ("nanvar", .variance_sample),
   ("count", .count), ("size", .count), ("len", .count), ("length", .count)]

def flattened_lookup (s : String) : Option AggOpName :=
  (flattened_function_mapping.find? (fun p => p.1 == s)).map Prod.snd

/-- A function-like value of an aggregate specification.  A `callable` models
an arbitrary Python callable by its `__name__` attribute (`none` when the
attribute is absent, `some "<lambda>"` for lambdas) together with the
canonical aggregate it computes when applied to a column collection (custom
callable bodies beyond collection aggregates are outside this model). -/
inductive AggFunc where
  | str (s : String)
  | ufunc (name : String)
  | callable (name : Option String) (impl : AggOpName)
deriving DecidableEq, Repr

/-- A value of the mapping form of an aggregate specification: a single
function-like value or a list of them.  (Values that are not function-like
raise `TypeError` in the source; they are outside this model.) -/
inductive AggValue where
  | fn (f : AggFunc)
  | listOf (fs : List AggFunc)
deriving DecidableEq, Repr

/-- The accepted shapes of the `func` argument: a single function-like value,
a list of them, or a mapping from column names to `AggValue`s.  (Non-string
mapping keys and non-function-like values raise `TypeError` in the source and
are outside this model.) -/
inductive AggInput where
  | fn (f : AggFunc)
  | listOf (fs : List AggFunc)
  | mapping (entries : List (String × AggValue))
deriving DecidableEq, Repr

def agg_unknown_string_message (s : String) : String :=
  "Invalid \x60func\x60 argument for the aggregate function.\nThe string " ++
    py_str_repr s ++ " does not correspond to any supported aggregation.\nAvailable string functions are: " ++
    py_str_list_repr (py_sorted (flattened_function_mapping.map Prod.fst))

def agg_unknown_ufunc_message (s : String) : String :=
  "Invalid \x60func\x60 argument for the aggregate function.\nThe NumPy function " ++
    py_str_repr s ++ " is not supported.\nSupported aggregate functions are: " ++
    py_str_list_repr (py_sorted (flattened_function_mapping.map Prod.fst))

/-- `normalize_agg_func_to_lambda_function`: resolves a function-like value to
the canonical aggregate it applies.  Strings are lower-cased before lookup;
ufunc names are looked up as-is; named callables whose name appears in the
table use the table entry, any other callable becomes the validation-wrapped
custom aggregate (which, applied to a collection, yields its own result). -/
def normalize_agg_func_to_lambda_function (f : AggFunc) :
    Except PyError AggOpName :=
  match f with
  | .str s =>
      match flattened_lookup (py_lower s) with
      | some op => .ok op
      | none => .error (.notImplementedError (agg_unknown_string_message s))
  | .ufunc n =>
      match flattened_lookup n with
      | some op => .ok op
      | none => .error (.notImplementedError (agg_unknown_ufunc_message n))
  | .callable nm impl =>
      let func_name := py_lower (nm.getD "")
      match flattened_lookup func_name with
      | some op => if func_name != "<lambda>" then .ok op else .ok impl
      | none => .ok impl

/-- `generate_column_alias`: strings and named callables/ufuncs yield
`<name>(<col>)`; anonymous callables yield `lambda_<counter>(<col>)`. -/
def generate_column_alias (col_name : String) (f : AggFunc)
    (lambda_counter : Nat) : String :=
  match f with
  | .str s => s ++ "(" ++ col_name ++ ")"
  | .ufunc n => n ++ "(" ++ col_name ++ ")"
  | .callable nm _ =>
      let func_name := nm.getD "<lambda>"
      if func_name != "<lambda>" then func_name ++ "(" ++ col_name ++ ")"
      else "lambda_" ++ toString lambda_counter ++ "(" ++ col_name ++ ")"

/-- The `validation_columns` of `normalize_input_func_to_standard_dict`:
plain frame ⇒ all columns; grouped frame with an explicit selection ⇒ the
selection; grouped frame without one ⇒ all columns of the base frame. -/
def validation_columns : PandasFrame → List String
  | .base t => t.columns.map TdsColumn.name
  | .grouped _ _ (some sel) => sel.map TdsColumn.name
  | .grouped t _ none => t.columns.map TdsColumn.name

/-- The `default_broadcast_columns` of `normalize_input_func_to_standard_dict`:
plain frame ⇒ all columns; grouped frame with an explicit selection ⇒ the
selection; grouped frame without one ⇒ all non-grouping-key columns. -/
def default_broadcast_columns : PandasFrame → List String
  | .base t => t.columns.map TdsColumn.name
  | .grouped _ _ (some sel) => sel.map TdsColumn.name
  | .grouped t g none =>
      (t.columns.map TdsColumn.name).filter
        (fun c => !((g.map TdsColumn.name).contains c))

/-- The `ValueError` message for a mapping key outside the legal columns. -/
def agg_key_error_message (vcols : List String) (key : String) : String :=
  "Invalid \x60func\x60 argument for the aggregate function.\nWhen a dictionary is provided, all keys must be column names.\nAvailable columns are: " ++
    py_str_list_repr (py_sorted vcols) ++
    "\nBut got key: " ++ py_str_repr key ++ " (type: str)\n"

/-- The mapping branch of `normalize_input_func_to_standard_dict`: per entry,
the key must be a legal column (else `ValueError`); list values are kept,
single values for grouping-key columns are wrapped into one-element lists. -/
def normalize_mapping_entries (fr : PandasFrame) :
    List (String × AggValue) → Except PyError (List (String × AggValue))
  | [] => .ok []
  | (key, value) :: rest =>
      if (validation_columns fr).contains key then
        let value' :=
          match value with
          | .listOf fs => AggValue.listOf fs
          | .fn f =>
              if (PandasFrame.grouping_names fr).contains key then
                AggValue.listOf [f]
              else AggValue.fn f
        (normalize_mapping_entries fr rest).map fun tail => (key, value') :: tail
      else .error (.valueError (agg_key_error_message (validation_columns fr) key))

/-- `normalize_input_func_to_standard_dict`: canonicalizes a function
specification into an ordered per-column association (the Python dict
preserves insertion order). -/
def normalize_input_func_to_standard_dict (func_input : AggInput)
    (fr : PandasFrame) : Except PyError (List (String × AggValue)) :=
  match func_input with
  | .mapping entries => normalize_mapping_entries fr entries
  | .listOf fs =>
      .ok ((default_broadcast_columns fr).map fun c => (c, .listOf fs))
  | .fn f =>
      .ok ((default_broadcast_columns fr).map fun c => (c, .fn f))

/-- One entry of an aggregates list: the generated alias, the mapped column
and the aggregate applied to the column's collection. -/
structure AggListEntry where
  alias_ : String
  column : String
  result : AggOpName
deriving DecidableEq, Repr

/-- Whether a function-like value counts as anonymous for the per-column
lambda counter (`getattr(func, "__name__", "<lambda>") == "<lambda>"`). -/
def is_anonymous_lambda : AggFunc → Bool
  | .str _ => false
  | .ufunc _ => false
  | .callable nm _ => (nm.getD "<lambda>") == "<lambda>"

/-- The list branch of the aggregates-list construction: walks the functions
of one column, incrementing the lambda counter before aliasing each anonymous
function. -/
def agg_entries_for_list (col : String) :
    List AggFunc → Nat → Except PyError (List AggListEntry)
  | [], _ => .ok []
  | f :: fs, counter =>
      let counter' := if is_anonymous_lambda f then counter + 1 else counter
      match normalize_agg_func_to_lambda_function f with
      | .error e => .error e
      | .ok op =>
          (agg_entries_for_list col fs counter').map fun rest =>
            ⟨generate_column_alias col f counter', col, op⟩ :: rest

/-- The per-column loop of `construct_aggregate_list` over the normalized
specification: a list value yields one aliased entry per function; a single
value yields one entry aliased by the column name itself. -/
def construct_aggregate_entries :
    List (String × AggValue) → Except PyError (List AggListEntry)
  | [] => .ok []
  | (col, .listOf fs) :: rest =>
      match agg_entries_for_list col fs 0 with
      | .error e => .error e
      | .ok es =>
          (construct_aggregate_entries rest).map fun tail => es ++ tail
  | (col, .fn f) :: rest =>
      match normalize_agg_func_to_lambda_function f with
      | .error e => .error e
      | .ok op =>
          (construct_aggregate_entries rest).map fun tail =>
            (⟨col, col, op⟩ : AggListEntry) :: tail

/-- `construct_aggregate_list`: normalization followed by the per-column
aggregates-list construction. -/
def construct_aggregate_list (fr : PandasFrame) (input_func : AggInput) :
    Except PyError (List AggListEntry) := do
  let normalized ← normalize_input_func_to_standard_dict input_func fr
  construct_aggregate_entries normalized

/-- Modelled from the spec: the SQL function name each canonical aggregate
renders as in the query tree (the shared primitive-collection aggregates are
outside the in-scope sources). -/
def AggOpName.sql_func_name : AggOpName → String
  | .average => "avg"
  | .sum => "sum"
  | .min => "min"
  | .max => "max"
  | .std_dev_sample => "stddev_samp"
  | .variance_sample => "var_samp"
  | .count => "count"

/-- Modelled from the spec: the expression-language method name each canonical
aggregate renders as on a column collection (`$c->sum()` etc.). -/
def AggOpName.pure_method_name : AggOpName → String
  | .average => "average"
  | .sum => "sum"
  | .min => "min"
  | .max => "max"
  | .std_dev_sample => "stdDev"
  | .variance_sample => "variance"
  | .count => "count"

/-! ## Windowed aggregate expression rendering (pandas_api_custom_expressions.py) -/

/-- The `pure_func_map` of `PandasApiWindowAggregateExpression
.to_pure_expression`, looked up with the query-tree function name and
defaulting to that name. -/
def pure_func_map_table : List (String × String) :=
  [("stddev_samp", "stdDev"), ("variance", "variance"), ("average", "average"),
   ("sum", "plus"), ("count", "count"), ("max", "max"), ("min", "min")]

def pure_func_map (func_name : String) : String :=
  ((pure_func_map_table.find? (fun p => p.1 == func_name)).map Prod.snd).getD
    func_name

/-- `PandasApiWindowAggregateExpression.to_pure_expression`: renders
`<partial-frame>-><mapped-name>(<window>, <column>)`, where the partial frame
and window references render as `$<var>`. -/
def PandasApiWindowAggregateExpression.to_pure_expression
    (pf_var wr_var col_pure func_name : String) : String :=
  "$" ++ pf_var ++ "->" ++ pure_func_map func_name ++
    "($" ++ wr_var ++ ", " ++ col_pure ++ ")"

/-! ## PandasApiWindowAggregateFunction (pandas_api_window_aggregate_function.py),
the compiler instantiated by `PandasApiExpandingTdsFrame.aggregate` -/

/-- The expanding wrapper (`pandas_api_expanding_tds_frame.py`): holds the
direct base frame (a plain or grouped frame).  Its `min_periods`, `axis` and
`method` arguments were already validated at wrapper construction. -/
structure PandasApiExpandingFrame where
  base_frame : PandasFrame
deriving DecidableEq, Repr

/-- `base_frame()` of the compiler: unwraps a grouped frame to its base. -/
def PandasApiExpandingFrame.true_base (ef : PandasApiExpandingFrame) :
    TableFrame :=
  ef.base_frame.true_base

def window_agg_zero_column_name : String := "__internal_pylegend_column__"

/-- The mapping branch of the compiler's private
`__normalize_input_func_to_standard_dict` specialized to its only reachable
configuration (validation columns = all columns, empty grouping set, so
single values are never wrapped). -/
def window_agg_normalize_mapping (vcols : List String) :
    List (String × AggValue) → Except PyError (List (String × AggValue))
  | [] => .ok []
  | (key, value) :: rest =>
      if vcols.contains key then
        (window_agg_normalize_mapping vcols rest).map fun tail =>
          (key, value) :: tail
      else .error (.valueError (agg_key_error_message vcols key))

/-- The compiler's private `__normalize_input_func_to_standard_dict`.  Its
grouped-frame branch tests `isinstance(self.__base_frame,
PandasApiGroupbyTdsFrame)`, but `self.__base_frame` is the expanding wrapper
itself — never a groupby frame — so only the else-branch is reachable:
validation columns and default broadcast columns are ALL columns of the true
base frame and the grouping set is empty, even when the wrapped frame is
grouped. -/
def window_agg_normalize (ef : PandasApiExpandingFrame)
    (func_input : AggInput) : Except PyError (List (String × AggValue)) :=
  let all_cols := ef.true_base.columns.map TdsColumn.name
  match func_input with
  | .mapping entries => window_agg_normalize_mapping all_cols entries
  | .listOf fs => .ok (all_cols.map fun c => (c, .listOf fs))
  | .fn f => .ok (all_cols.map fun c => (c, .fn f))

/-- The window built by the compiler's `__construct_expressions`: partitioned
by the grouping columns of the wrapped frame when grouped, ordered by the
internal zero column ascending (`PandasApiDirectSortInfo`), with a
ROWS / unbounded-preceding / current-row frame. -/
def window_agg_construct_window (ef : PandasApiExpandingFrame) :
    PandasApiWindow :=
  let partition_by : Option (List String) :=
    match ef.base_frame with
    | .grouped _ g _ => some (g.map TdsColumn.name)
    | .base _ => none
  { partitionBy := partition_by,
    orderBy := some [PandasApiDirectSortInfo.init window_agg_zero_column_name .asc],
    frame := some ⟨.rows, ⟨.unboundedPreceding, none⟩,
                   some ⟨.currentRow, none⟩⟩ }

/-- The compiler's `__construct_expressions` (run once, from `__init__`):
builds the window and the aggregates list (the per-column loop is the same
code as `construct_aggregate_entries`). -/
def window_agg_construct_expressions (ef : PandasApiExpandingFrame)
    (func_input : AggInput) :
    Except PyError (PandasApiWindow × List AggListEntry) := do
  let window := window_agg_construct_window ef
  let normalized ← window_agg_normalize ef func_input
  let aggs ← construct_aggregate_entries normalized
  .ok (window, aggs)

/-- The state of a constructed `PandasApiWindowAggregateFunction` instance:
the wrapper plus the window and aggregates list set by `__init__`. -/
structure WindowAggregateState where
  base_frame : PandasApiExpandingFrame
  window : PandasApiWindow
  aggregates_list : List AggListEntry
deriving DecidableEq, Repr

/-- `PandasApiWindowAggregateFunction.__init__`. -/
def PandasApiWindowAggregateFunction.init (ef : PandasApiExpandingFrame)
    (func_input : AggInput) : Except PyError WindowAggregateState :=
  (window_agg_construct_expressions ef func_input).map fun wa =>
    ⟨ef, wa.1, wa.2⟩

/-- Stable insertion sort of `(index, select item)` pairs by index, matching
Python `sorted(..., key=lambda x: x[0])`. -/
def insert_by_index (x : Nat × SingleColumn) :
    List (Nat × SingleColumn) → List (Nat × SingleColumn)
  | [] => [x]
  | y :: ys => if x.1 < y.1 then x :: y :: ys else y :: insert_by_index x ys

def sort_by_index : List (Nat × SingleColumn) → List (Nat × SingleColumn)
  | [] => []
  | x :: xs => insert_by_index x (sort_by_index xs)

/-- The grouping-column retention step shared by the window-aggregate and
aggregate `to_sql` methods: keep the select items whose alias is a quoted
grouping-column name, ordered by position in the grouping list. -/
def retained_group_items (grouping_names : List String)
    (q : QuerySpecification) : List SingleColumn :=
  let columns_to_retain := grouping_names.map quote_identifier
  let with_index := q.selectItems.filterMap fun col =>
    if columns_to_retain.contains col.alias_ then
      some (columns_to_retain.indexOf col.alias_, col)
    else none
  (sort_by_index with_index).map Prod.snd

/-- `PandasApiWindowAggregateFunction.to_sql`: appends the zero column to the
base query, wraps it, retains the grouping columns (when the wrapped frame is
grouped), projects one window expression per aggregate and installs a
group-by over the grouping columns.  The instance state is read, never
written.  (The row-column accesses `tds_row[c]` resolve by alias against the
enclosing query; that resolution is modelled by `find_column_expression`.) -/
def PandasApiWindowAggregateFunction.to_sql_core (s : WindowAggregateState) :
    Except PyError QuerySpecification := do
  let base := s.base_frame.true_base.to_sql_query_object
  let base_query := base.withSelectItems
    (base.selectItems ++
      [⟨quote_identifier window_agg_zero_column_name, .integerLiteral 0⟩])
  let new_query := create_sub_query base_query "root"
  let retained : List SingleColumn :=
    match s.base_frame.base_frame with
    | .grouped _ g _ => retained_group_items (g.map TdsColumn.name) new_query
    | .base _ => []
  let window_items ← s.aggregates_list.mapM (fun agg => do
    let col_expr ← find_column_expression new_query agg.column
    let win ← s.window.to_sql_node new_query
    .ok (⟨quote_identifier agg.alias_,
          SqlExpression.windowExpr
            (.functionCall agg.result.sql_func_name [col_expr]) win⟩ :
        SingleColumn))
  let new_query := new_query.withSelectItems (retained ++ window_items)
  match s.base_frame.base_frame with
  | .grouped _ g _ => do
      let gb ← (g.map TdsColumn.name).mapM (find_column_expression new_query)
      .ok (new_query.withGroupBy gb)
  | .base _ => .ok new_query

/-- `PandasApiWindowAggregateFunction.to_sql` with the instance state threaded
explicitly: the method reads the pre-computed window and aggregates list and
never writes any instance field. -/
def PandasApiWindowAggregateFunction.to_sql (s : WindowAggregateState) :
    Except PyError (QuerySpecification × WindowAggregateState) :=
  (PandasApiWindowAggregateFunction.to_sql_core s).map fun q => (q, s)

/-- `PandasApiWindowAggregateFunction.to_pure`: the first executed statement
of the method is an unconditional `return ""`; everything after it is
unreachable dead code, so the method returns the empty string for every
instance and configuration, leaving the instance untouched. -/
def PandasApiWindowAggregateFunction.to_pure (_ : Nat → Bool → String)
    (s : WindowAggregateState) : String × WindowAggregateState :=
  ("", s)

/-! ## AggregateFunction (aggregate_function.py) -/

/-- Python `str()` of an axis value (`{self.__axis}` in the aggregate
validation message — no `repr` quotes). -/
def AxisV.plain : AxisV → String
  | .int n => toString n
  | .str s => s

/-- The per-column loop of `AggregateFunction.validate`: like
`construct_aggregate_entries`, except a single value for a grouping-key
column is aliased through `generate_column_alias` (counter 0) instead of the
bare column name. -/
def aggregate_entries_with_group_alias (group_cols : List String) :
    List (String × AggValue) → Except PyError (List AggListEntry)
  | [] => .ok []
  | (col, .listOf fs) :: rest =>
      match agg_entries_for_list col fs 0 with
      | .error e => .error e
      | .ok es =>
          (aggregate_entries_with_group_alias group_cols rest).map fun tail =>
            es ++ tail
  | (col, .fn f) :: rest =>
      match normalize_agg_func_to_lambda_function f with
      | .error e => .error e
      | .ok op =>
          let al := if group_cols.contains col then
              generate_column_alias col f 0
            else col
          (aggregate_entries_with_group_alias group_cols rest).map fun tail =>
            (⟨al, col, op⟩ : AggListEntry) :: tail

/-- The state of a validated `AggregateFunction` instance: the frame plus the
`__aggregates_list` populated by `validate`. -/
structure AggregateState where
  base_frame : PandasFrame
  aggregates_list : List AggListEntry
deriving DecidableEq, Repr

/-- `AggregateFunction.validate`: checks axis and extra arguments, then
normalizes the specification and populates the aggregates list. -/
def AggregateFunction.validate (fr : PandasFrame) (axis : AxisV)
    (num_args num_kwargs : Nat) (func_input : AggInput) :
    Except PyError AggregateState :=
  if !(axis == .int 0 || axis == .str "index") then
    .error (.notImplementedError
      ("The \x27axis\x27 parameter of the aggregate function must be 0 or \x27index\x27, but got: " ++
        axis.plain))
  else if num_args > 0 || num_kwargs > 0 then
    .error (.notImplementedError
      "AggregateFunction currently does not support additional positional or keyword arguments. Please remove extra *args/**kwargs.")
  else do
    let normalized ← normalize_input_func_to_standard_dict func_input fr
    let aggs ← aggregate_entries_with_group_alias
      (PandasFrame.grouping_names fr) normalized
    .ok ⟨fr, aggs⟩

/-- `AggregateFunction.to_sql`: wraps the base query in a sub-query whenever
it already has grouping, a distinct flag or pagination (otherwise a plain
copy), retains the grouping columns, projects one aggregate call per entry
and installs the group-by.  The instance state is read, never written. -/
def AggregateFunction.to_sql_core (s : AggregateState) :
    Except PyError QuerySpecification := do
  let base_query := s.base_frame.true_base.to_sql_query_object
  let should_create_sub_query :=
    !base_query.groupBy.isEmpty || base_query.distinct ||
      base_query.offset.isSome || base_query.limit.isSome
  let new_query :=
    if should_create_sub_query then create_sub_query base_query "root"
    else copy_query base_query
  let retained : List SingleColumn :=
    match s.base_frame with
    | .grouped _ g _ => retained_group_items (g.map TdsColumn.name) new_query
    | .base _ => []
  let agg_items ← s.aggregates_list.mapM (fun agg => do
    let col_expr ← find_column_expression new_query agg.column
    .ok (⟨quote_identifier agg.alias_,
          SqlExpression.functionCall agg.result.sql_func_name [col_expr]⟩ :
        SingleColumn))
  let new_query := new_query.withSelectItems (retained ++ agg_items)
  match s.base_frame with
  | .grouped _ g _ => do
      let gb ← (g.map TdsColumn.name).mapM (find_column_expression new_query)
      .ok (new_query.withGroupBy gb)
  | .base _ => .ok new_query

/-- `AggregateFunction.to_sql` with the instance state threaded explicitly:
the method reads the validated aggregates list and never writes any instance
field. -/
def AggregateFunction.to_sql (s : AggregateState) :
    Except PyError (QuerySpecification × AggregateState) :=
  (AggregateFunction.to_sql_core s).map fun q => (q, s)

/-- `AggregateFunction.to_pure`: renders `->groupBy(...)` for a grouped frame
and `->aggregate(...)` otherwise.  (The column access `r[col]` renders as
`$r.<col>`, modelled from the spec; the aggregate string substitutes the
mapped column text by `$c`, as the source does with `str.replace`.)  The
instance state is read, never written. -/
def AggregateFunction.to_pure (sep : Nat → Bool → String)
    (s : AggregateState) : String × AggregateState :=
  let agg_strings := s.aggregates_list.map fun agg =>
    let map_expr_string := "$r." ++ escape_column_name agg.column
    let agg_expr_string :=
      (map_expr_string ++ "->" ++ agg.result.pure_method_name ++ "()").replace
        map_expr_string "$c"
    escape_column_name agg.alias_ ++ ":" ++
      generate_pure_lambda "r" map_expr_string ++ ":" ++
      generate_pure_lambda "c" agg_expr_string
  match s.base_frame with
  | .grouped t g _ =>
      let group_strings := g.map fun c => escape_column_name c.name
      (t.to_pure ++ sep 1 false ++ "->groupBy(" ++ sep 2 false ++ "~[" ++
        String.intercalate ", " group_strings ++ "]," ++ sep 2 true ++ "~[" ++
        String.intercalate ", " agg_strings ++ "]" ++ sep 1 false ++ ")", s)
  | .base t =>
      (t.to_pure ++ sep 1 false ++ "->aggregate(" ++ sep 2 false ++ "~[" ++
        String.intercalate ", " agg_strings ++ "]" ++ sep 1 false ++ ")", s)

/-! ## Window construction paths that always raise
(pandas_api_window_tds_frame.py and window_aggregate_function.py) -/

/-- `PandasApiExpandingTdsFrame.construct_window`
(pandas_api_window_tds_frame.py): builds sort infos by passing plain string
column names to `PandasApiSortInfo.__init__`, then builds the frame bounds by
calling `PandasApiFrameBound` with only a bound type. -/
def PandasApiExpandingTdsFrame.construct_window
    (partition_by : Option (List String))
    (sorting_column_names : Option (List String)) :
    Except PyError PandasApiWindow := do
  let order_by ← match sorting_column_names with
    | none => pure (none : Option (List PandasApiSortInfo))
    | some [] => pure none
    | some cols =>
        (cols.mapM (fun c => PandasApiSortInfo.init (.plainStr c) .asc)).map some
  let start_bound ← PandasApiFrameBound.call_with_missing_value
    .unboundedPreceding
  let end_bound ← PandasApiFrameBound.call_with_missing_value .currentRow
  .ok ⟨partition_by, order_by, some ⟨.rows, start_bound, some end_bound⟩⟩

/-- `PandasApiRollingTdsFrame.construct_window`: the body is identical to the
expanding variant in the source. -/
def PandasApiRollingTdsFrame.construct_window
    (partition_by : Option (List String))
    (sorting_column_names : Option (List String)) :
    Except PyError PandasApiWindow := do
  let order_by ← match sorting_column_names with
    | none => pure (none : Option (List PandasApiSortInfo))
    | some [] => pure none
    | some cols =>
        (cols.mapM (fun c => PandasApiSortInfo.init (.plainStr c) .asc)).map some
  let start_bound ← PandasApiFrameBound.call_with_missing_value
    .unboundedPreceding
  let end_bound ← PandasApiFrameBound.call_with_missing_value .currentRow
  .ok ⟨partition_by, order_by, some ⟨.rows, start_bound, some end_bound⟩⟩

/-- The window-construction step of `__construct_expressions` in
`window_aggregate_function.py` (the second module defining a
`PandasApiWindowAggregateFunction`): it passes the zero-column name — a plain
string — to `PandasApiSortInfo.__init__`, and would then call
`PandasApiFrameBound` with only a bound type. -/
def WindowAggregateFunctionModule.construct_window
    (partition_by : Option (List String)) (zero_column_name : String) :
    Except PyError PandasApiWindow := do
  let si ← PandasApiSortInfo.init (.plainStr zero_column_name) .asc
  let start_bound ← PandasApiFrameBound.call_with_missing_value
    .unboundedPreceding
  let end_bound ← PandasApiFrameBound.call_with_missing_value .currentRow
  .ok ⟨partition_by, some [si], some ⟨.rows, start_bound, some end_bound⟩⟩

/-! ## Claim-side definitions and concrete scenarios -/

/-- Modelled from the spec: the default separator policy of the rendering
configuration — a newline followed by two spaces of indentation per depth
level (the continuation flag does not change the default policy). -/
def default_sep (depth : Nat) (_ : Bool) : String :=
  "\n" ++ String.join (List.replicate depth "  ")

/-- The single-integer-column frame of the C1 concrete scenario. -/
def c1_frame : PandasFrame :=
  .base ⟨"test_schema", "test_table", [⟨"col1", "Integer"⟩]⟩

/-- Innermost level of the expected C1 query: the base table scan with the
literal `0` column `__pylegend_internal_column_name__` injected. -/
def c1_inner_query : QuerySpecification :=
  .mk [⟨"\"col1\"", .qualifiedNameReference ["\"root\"", "col1"]⟩,
       ⟨"\"__pylegend_internal_column_name__\"", .integerLiteral 0⟩]
      false ["test_schema", "test_table"] none [] none none

/-- Middle level of the expected C1 query: computes
`lag("root"."col1", 1) OVER (ORDER BY "root"."__pylegend_internal_column_name__")`
aliased `"col1__pylegend_internal_column_name__"`. -/
def c1_middle_query : QuerySpecification :=
  .mk [⟨"\"col1\"", .qualifiedNameReference ["\"root\"", "col1"]⟩,
       ⟨"\"col1__pylegend_internal_column_name__\"",
        .windowExpression
          (.functionCall "lag"
            [.qualifiedNameReference ["\"root\"", "\"col1\""],
             .integerLiteral 1])
          []
          [(.qualifiedNameReference
              ["\"root\"", "\"__pylegend_internal_column_name__\""],
            .ascending, .undefined)]
          none⟩]
      false [] (some (c1_inner_query, "root")) [] none none

/-- Outermost level of the expected C1 query: selects
`"root"."col1" - "root"."col1__pylegend_internal_column_name__"` aliased
`"col1"`. -/
def c1_expected_query : QuerySpecification :=
  .mk [⟨"\"col1\"",
        .arithmeticSubtract
          (.qualifiedNameReference ["\"root\"", "\"col1\""])
          (.qualifiedNameReference
            ["\"root\"", "\"col1__pylegend_internal_column_name__\""])⟩]
      false [] (some (c1_middle_query, "root")) [] none none

/-- The expanding wrapper of the C2 concrete scenario: integer `col1` and
float `col2`. -/
def c2_ef : PandasApiExpandingFrame :=
  ⟨.base ⟨"test_schema", "test_table",
      [⟨"col1", "Integer"⟩, ⟨"col2", "Float"⟩]⟩⟩

/-- The state `PandasApiWindowAggregateFunction.__init__` builds for the C2
scenario (`expanding().agg("sum")`). -/
def c2_state : WindowAggregateState :=
  ⟨c2_ef, window_agg_construct_window c2_ef,
   [⟨"col1", "col1", .sum⟩, ⟨"col2", "col2", .sum⟩]⟩

/-- Extracts the window-frame field of a window-expression select item
(`none` result for non-window expressions). -/
def select_item_window_frame : SqlExpression → Option (Option WindowFrame)
  | .windowExpression _ _ _ wf => some wf
  | _ => none

/-- The expanding wrapper of the C8 failing scenario: grouped by
`grouping_col` with no explicit selection. -/
def c8_ef : PandasApiExpandingFrame :=
  ⟨.grouped
     ⟨"test_schema", "test_table",
      [⟨"grouping_col", "String"⟩, ⟨"value_col", "Integer"⟩,
       ⟨"random_col", "Float"⟩]⟩
     [⟨"grouping_col", "String"⟩] none⟩

/-- The grouped frame of the C4 counterexample: grouped by `g`, no explicit
selection. -/
def c4_grouped_frame : PandasFrame :=
  .grouped ⟨"test_schema", "test_table",
      [⟨"g", "String"⟩, ⟨"c1", "Integer"⟩]⟩
    [⟨"g", "String"⟩] none

/-- The plain single-column frame used by the C3 counterexample and the C4/C5
witnesses. -/
def c3_plain_frame : PandasFrame :=
  .base ⟨"test_schema", "test_table", [⟨"col1", "Integer"⟩]⟩

/-- Two-column plain frame for the C3 witness. -/
def c3_witness_frame : PandasFrame :=
  .base ⟨"test_schema", "test_table",
    [⟨"col1", "Integer"⟩, ⟨"col2", "Float"⟩]⟩

/-- The frame with non-numeric columns for the C5 type-mismatch witness. -/
def c5_bad_frame : PandasFrame :=
  .base ⟨"test_schema", "test_table",
    [⟨"col1", "String"⟩, ⟨"col2", "Date"⟩]⟩

/-- Claim-side view of a function-like value's output name: `some <name>` for
strings, numeric-library functions and named callables; `none` for anonymous
(nameless) functions. -/
def claim_func_name : AggFunc → Option String
  | .str s => some s
  | .ufunc n => some n
  | .callable (some nm) _ => if nm == "<lambda>" then none else some nm
  | .callable none _ => none

/-- Claim-side alias rule for a list-valued column specification (C3 as
amended): each named function yields `<func-name>(<col-name>)`; each
anonymous function yields `lambda_<k>(<col-name>)` where `k` is the 1-based
occurrence counter of anonymous functions within the column's list. -/
def claim_list_aliases (col : String) : List AggFunc → Nat → List String
  | [], _ => []
  | f :: rest, k =>
      match claim_func_name f with
      | some nm => (nm ++ "(" ++ col ++ ")") :: claim_list_aliases col rest k
      | none =>
          ("lambda_" ++ toString (k + 1) ++ "(" ++ col ++ ")") ::
            claim_list_aliases col rest (k + 1)

/-- Claim-side alias rule for one normalized column entry (C3 as amended):
a single non-list function value is aliased by the column name exactly; a
list value — even a one-element list — is aliased function-wise. -/
def claim_aliases_for_column (col : String) : AggValue → List String
  | .fn _ => [col]
  | .listOf fs => claim_list_aliases col fs 0

/-- The error every call of the always-raising `construct_window` paths ends
in (C10): with a non-empty sort-column list, `PandasApiSortInfo.__init__`
raises `AttributeError` on the plain string first; otherwise the one-argument
`PandasApiFrameBound` call raises `TypeError`. -/
def c10_expected_error : Option (List String) → PyError
  | some (_ :: _) =>
      .attributeError "\x27str\x27 object has no attribute \x27get_column\x27"
  | _ =>
      .typeError "__init__() missing 1 required positional argument: \x27value\x27"

/-! ## Theorems -/

/-- C1: for a frame with a single integer column `col1`, `DiffFunction.to_sql`
renders exactly the three-level nested query of the concrete scenario — the
innermost level injects the literal `0` column
`__pylegend_internal_column_name__` into the base table scan, the middle
level computes `lag("root"."col1", 1) OVER (ORDER BY
"root"."__pylegend_internal_column_name__")` aliased
`"col1__pylegend_internal_column_name__"`, and the outermost level selects
`"root"."col1" - "root"."col1__pylegend_internal_column_name__"` aliased
`"col1"`. -/
theorem c1_diff_to_sql_concrete_scenario :
    (DiffFunction.to_sql ⟨c1_frame, 1, .int 0, none⟩).map Prod.fst =
      .ok c1_expected_query := by
  rfl

/-- C9: `PandasApiWindowAggregateFunction.to_pure` (the compiler instantiated
by `PandasApiExpandingTdsFrame.aggregate`) returns the empty string for every
instance state and every separator configuration: its first executed
statement is an unconditional `return ""`. -/
theorem c9_window_agg_to_pure_always_empty :
    ∀ (sep : Nat → Bool → String) (s : WindowAggregateState),
      PandasApiWindowAggregateFunction.to_pure sep s = ("", s) := by
  intro sep s
  rfl

/-- C2 (evaluation at the failing input): for the `expanding().agg("sum")`
scenario over integer `col1` and float `col2`, the window descriptor built at
construction does carry the ROWS / unbounded-preceding / current-row frame,
but the rendered query tree drops it — both window-expression select items of
`to_sql` carry `windowFrame = none`, so no `ROWS BETWEEN UNBOUNDED PRECEDING
AND CURRENT ROW` clause can be rendered — the window's expression-language
rendering contains no `rows(unbounded(), 0)` segment, and `to_pure` returns
the empty string instead of the `->extend(...)->project(...)` program. -/
theorem c2_expanding_agg_render_divergence :
    PandasApiWindowAggregateFunction.init c2_ef (.fn (.str "sum")) =
        .ok c2_state ∧
      c2_state.window.frame =
        some ⟨.rows, ⟨.unboundedPreceding, none⟩, some ⟨.currentRow, none⟩⟩ ∧
      (PandasApiWindowAggregateFunction.to_sql c2_state).map
          (fun p => p.1.selectItems.map
            (fun i => select_item_window_frame i.expression)) =
        .ok [some none, some none] ∧
      PandasApiWindow.to_pure_expression c2_state.window =
        "over([ascending(~__internal_pylegend_column__)])" ∧
      (PandasApiWindowAggregateFunction.to_pure default_sep c2_state).1 = "" := by
  exact ⟨by rfl, by rfl, by rfl, by rfl, by rfl⟩

/-- C10: every call of the expanding/rolling `construct_window`
(pandas_api_window_tds_frame.py) and of the window-construction step of
`window_aggregate_function.py` raises before a window is produced: a
non-empty sort-column list makes `PandasApiSortInfo.__init__` call
`.get_column()` on a plain string (`AttributeError`); otherwise the
one-argument `PandasApiFrameBound` call raises `TypeError` for the missing
`value` argument.  The success branch is unreachable for all inputs. -/
theorem c10_construct_window_always_raises :
    ∀ (partition_by : Option (List String))
      (sorting_column_names : Option (List String)) (zero : String),
      PandasApiExpandingTdsFrame.construct_window partition_by
          sorting_column_names =
        .error (c10_expected_error sorting_column_names) ∧
      PandasApiRollingTdsFrame.construct_window partition_by
          sorting_column_names =
        .error (c10_expected_error sorting_column_names) ∧
      WindowAggregateFunctionModule.construct_window partition_by zero =
        .error (.attributeError
          "\x27str\x27 object has no attribute \x27get_column\x27") := by
  intro partition_by sorting_column_names zero
  refine ⟨?_, ?_, rfl⟩ <;>
    rcases sorting_column_names with _ | ⟨_ | ⟨c, cs⟩⟩ <;> rfl

/-- C6: a windowed aggregate expression renders to expression-language text
as `<partial-frame>-><mapped-name>(<window>, <column>)` with the fixed
function-name mapping stddev_samp↦stdDev, variance↦variance,
average↦average, sum↦plus, count↦count, max↦max, min↦min; in particular the
sum aggregate renders as "plus", never as "sum". -/
theorem c6_pure_function_name_mapping :
    ∀ (p w col : String),
      PandasApiWindowAggregateExpression.to_pure_expression p w col
          "stddev_samp" =
        "$" ++ p ++ "->" ++ "stdDev" ++ "($" ++ w ++ ", " ++ col ++ ")" ∧
      PandasApiWindowAggregateExpression.to_pure_expression p w col
          "variance" =
        "$" ++ p ++ "->" ++ "variance" ++ "($" ++ w ++ ", " ++ col ++ ")" ∧
      PandasApiWindowAggregateExpression.to_pure_expression p w col
          "average" =
        "$" ++ p ++ "->" ++ "average" ++ "($" ++ w ++ ", " ++ col ++ ")" ∧
      PandasApiWindowAggregateExpression.to_pure_expression p w col "sum" =
        "$" ++ p ++ "->" ++ "plus" ++ "($" ++ w ++ ", " ++ col ++ ")" ∧
      PandasApiWindowAggregateExpression.to_pure_expression p w col "count" =
        "$" ++ p ++ "->" ++ "count" ++ "($" ++ w ++ ", " ++ col ++ ")" ∧
      PandasApiWindowAggregateExpression.to_pure_expression p w col "max" =
        "$" ++ p ++ "->" ++ "max" ++ "($" ++ w ++ ", " ++ col ++ ")" ∧
      PandasApiWindowAggregateExpression.to_pure_expression p w col "min" =
        "$" ++ p ++ "->" ++ "min" ++ "($" ++ w ++ ", " ++ col ++ ")" ∧
      pure_func_map "sum" = "plus" ∧ pure_func_map "sum" ≠ "sum" := by
  intro p w col
  refine ⟨rfl, rfl, rfl, rfl, rfl, rfl, rfl, rfl, by decide⟩

/-- C5: `DiffFunction.validate` rejects every periods value outside `[1, -1]`
with a `NotImplementedError` naming the parameter and the received value,
rejects every axis value other than `0` / `"index"` with a
`NotImplementedError` naming the parameter and the received value, and — with
periods and axis valid — raises a `TypeError` listing every target column
whose declared type is not Integer, Float or Number together with its
declared type.  All three checks live in `validate`, which runs before any
rendering work. -/
theorem c5_diff_validate_rejections :
    (∀ (periods : Int) (axis : AxisV) (fr : PandasFrame),
       (([1, -1] : List Int).contains periods) = false →
       DiffFunction.validate periods axis fr =
         .error (.notImplementedError
           ("The \x27periods\x27 argument of the diff function is only supported for values [1, -1], but got: periods=" ++
             toString periods))) ∧
    (∀ (periods : Int) (axis : AxisV) (fr : PandasFrame),
       (([1, -1] : List Int).contains periods) = true →
       (axis == AxisV.int 0 || axis == AxisV.str "index") = false →
       DiffFunction.validate periods axis fr =
         .error (.notImplementedError
           ("The \x27axis\x27 argument of the diff function must be 0 or \x27index\x27, but got: axis=" ++
             axis.repr))) ∧
    (∀ (periods : Int) (axis : AxisV) (fr : PandasFrame),
       (([1, -1] : List Int).contains periods) = true →
       (axis == AxisV.int 0 || axis == AxisV.str "index") = true →
       diff_mismatched_columns fr ≠ [] →
       DiffFunction.validate periods axis fr =
         .error (.typeError
           ("The diff function can only be applied to the following column types: [\x27Integer\x27, \x27Float\x27, \x27Number\x27], but got the following invalid columns: " ++
             py_str_list_repr
               ((diff_mismatched_columns fr).map TdsColumn.str)))) := by
  refine ⟨?_, ?_, ?_⟩ <;> intro periods axis fr h1
  · simp only [DiffFunction.validate, h1, Bool.not_false, if_true]
  · intro h2
    simp only [DiffFunction.validate, h1, h2, Bool.not_true, Bool.not_false]
    simp
  · intro h2 h3
    simp only [DiffFunction.validate, h1, h2, Bool.not_true]
    simp [h3]

/-- Witness for C5: the three rejections evaluated at `periods=0`, `axis=1`
and a frame with String/Date columns, reproducing the exact messages of the
repository's tests. -/
theorem c5_diff_validate_rejections_witness :
    DiffFunction.validate 0 (.int 0) c3_plain_frame =
        .error (.notImplementedError
          "The \x27periods\x27 argument of the diff function is only supported for values [1, -1], but got: periods=0") ∧
      DiffFunction.validate 1 (.int 1) c3_plain_frame =
        .error (.notImplementedError
          "The \x27axis\x27 argument of the diff function must be 0 or \x27index\x27, but got: axis=1") ∧
      DiffFunction.validate 1 (.int 0) c5_bad_frame =
        .error (.typeError
          "The diff function can only be applied to the following column types: [\x27Integer\x27, \x27Float\x27, \x27Number\x27], but got the following invalid columns: [\x27TdsColumn(Name: col1, Type: String)\x27, \x27TdsColumn(Name: col2, Type: Date)\x27]") :=
  ⟨c5_diff_validate_rejections.1 0 (.int 0) c3_plain_frame (by rfl),
   c5_diff_validate_rejections.2.1 1 (.int 1) c3_plain_frame (by rfl) (by rfl),
   c5_diff_validate_rejections.2.2 1 (.int 0) c5_bad_frame (by rfl) (by rfl)
     (by decide)⟩

/-- Counterexample for C4 as stated: on a frame grouped by `g` without an
explicit selection, the claim's legal universe is the non-grouping-key
columns, so the mapping key `g` should raise `ValueError`; the code instead
validates against ALL columns and accepts `g` (wrapping its single function
into a one-element list). -/
theorem c4_counterexample_group_key_accepted :
    normalize_input_func_to_standard_dict
        (.mapping [("g", .fn (.str "sum"))]) c4_grouped_frame =
      .ok [("g", .listOf [.str "sum"])] ∧
      PandasFrame.grouping_names c4_grouped_frame = ["g"] := by
  exact ⟨by rfl, by rfl⟩

/-- C4 as amended: mapping keys are validated against the legal column
universe — all columns for a plain frame, the explicit selection for a
grouped frame with one, and ALL columns (grouping keys included) for a
grouped frame without one — and a key outside that universe raises a
`ValueError` whose message enumerates the sorted legal columns. -/
theorem c4_amended_key_validation :
    (∀ (fr : PandasFrame) (k : String) (v : AggValue)
       (rest : List (String × AggValue)),
       ((validation_columns fr).contains k) = false →
       normalize_input_func_to_standard_dict (.mapping ((k, v) :: rest)) fr =
         .error (.valueError
           ("Invalid \x60func\x60 argument for the aggregate function.\nWhen a dictionary is provided, all keys must be column names.\nAvailable columns are: " ++
             py_str_list_repr (py_sorted (validation_columns fr)) ++
             "\nBut got key: " ++ py_str_repr k ++ " (type: str)\n"))) ∧
    (∀ (t : TableFrame),
       validation_columns (.base t) = t.columns.map TdsColumn.name) ∧
    (∀ (t : TableFrame) (g : List TdsColumn) (sel : List TdsColumn),
       validation_columns (.grouped t g (some sel)) =
         sel.map TdsColumn.name) ∧
    (∀ (t : TableFrame) (g : List TdsColumn),
       validation_columns (.grouped t g none) =
         t.columns.map TdsColumn.name) := by
  refine ⟨?_, fun _ => rfl, fun _ _ _ => rfl, fun _ _ => rfl⟩
  intro fr k v rest h
  have h2 : ¬ k ∈ validation_columns fr := by simpa using h
  simp [normalize_input_func_to_standard_dict, normalize_mapping_entries, h2,
    agg_key_error_message]

/-- Witness for C4 as amended: the unknown key `zzz` on a plain one-column
frame raises the `ValueError` with the sorted universe `['col1']`. -/
theorem c4_amended_key_validation_witness :
    normalize_input_func_to_standard_dict
        (.mapping [("zzz", .fn (.str "sum"))]) c3_plain_frame =
      .error (.valueError
        "Invalid \x60func\x60 argument for the aggregate function.\nWhen a dictionary is provided, all keys must be column names.\nAvailable columns are: [\x27col1\x27]\nBut got key: \x27zzz\x27 (type: str)\n") :=
  c4_amended_key_validation.1 c3_plain_frame "zzz" (.fn (.str "sum")) []
    (by rfl)

/-- C8 (evaluation at the failing input): the private normalizer of the
compiler instantiated by `expanding().agg(...)` tests `isinstance` on the
expanding wrapper instead of the wrapped frame, so broadcasting `"sum"` over
a frame grouped by `grouping_col` without an explicit selection targets ALL
columns — the grouping key included — while the shared helper normalizer (and
the repository's own expanding tests) exclude it. -/
theorem c8_group_key_broadcast_divergence :
    (window_agg_normalize c8_ef (.fn (.str "sum"))).map
        (fun l => l.map Prod.fst) =
      .ok ["grouping_col", "value_col", "random_col"] ∧
      (normalize_input_func_to_standard_dict (.fn (.str "sum"))
          c8_ef.base_frame).map (fun l => l.map Prod.fst) =
        .ok ["value_col", "random_col"] ∧
      PandasFrame.grouping_names c8_ef.base_frame = ["grouping_col"] := by
  exact ⟨by rfl, by rfl, by rfl⟩

/-- Helper: the aliases produced by the list branch of the aggregates-list
construction follow the claim-side alias rule, for any starting value of the
anonymous-function counter. -/
theorem agg_entries_for_list_aliases (col : String) :
    ∀ (fs : List AggFunc) (k : Nat) (es : List AggListEntry),
      agg_entries_for_list col fs k = .ok es →
      es.map AggListEntry.alias_ = claim_list_aliases col fs k := by
  intro fs
  induction fs with
  | nil =>
      intro k es h
      simp only [agg_entries_for_list] at h
      cases h
      rfl
  | cons f fs ih =>
      intro k es h
      cases f with
      | str s =>
          simp only [agg_entries_for_list, is_anonymous_lambda, if_neg,
            Bool.false_eq_true, ite_false] at h
          cases hn : normalize_agg_func_to_lambda_function (.str s) with
          | error e => rw [hn] at h; simp [Except.map] at h
          | ok op =>
              rw [hn] at h
              cases hrec : agg_entries_for_list col fs k with
              | error e => rw [hrec] at h; simp [Except.map] at h
              | ok l =>
                  rw [hrec] at h
                  simp only [Except.map] at h
                  cases h
                  simp [claim_list_aliases, claim_func_name,
                    generate_column_alias, ih k l hrec]
      | ufunc n =>
          simp only [agg_entries_for_list, is_anonymous_lambda,
            Bool.false_eq_true, ite_false] at h
          cases hn : normalize_agg_func_to_lambda_function (.ufunc n) with
          | error e => rw [hn] at h; simp [Except.map] at h
          | ok op =>
              rw [hn] at h
              cases hrec : agg_entries_for_list col fs k with
              | error e => rw [hrec] at h; simp [Except.map] at h
              | ok l =>
                  rw [hrec] at h
                  simp only [Except.map] at h
                  cases h
                  simp [claim_list_aliases, claim_func_name,
                    generate_column_alias, ih k l hrec]
      | callable nm impl =>
          cases nm with
          | none =>
              simp only [agg_entries_for_list, is_anonymous_lambda,
                Option.getD_none, beq_self_eq_true, ite_true] at h
              cases hn : normalize_agg_func_to_lambda_function
                  (.callable none impl) with
              | error e => rw [hn] at h; simp [Except.map] at h
              | ok op =>
                  rw [hn] at h
                  cases hrec : agg_entries_for_list col fs (k + 1) with
                  | error e => rw [hrec] at h; simp [Except.map] at h
                  | ok l =>
                      rw [hrec] at h
                      simp only [Except.map] at h
                      cases h
                      simp [claim_list_aliases, claim_func_name,
                        generate_column_alias, ih (k + 1) l hrec]
          | some s2 =>
              by_cases hs : s2 = "<lambda>"
              · subst hs
                simp only [agg_entries_for_list, is_anonymous_lambda,
                  Option.getD_some, beq_self_eq_true, ite_true] at h
                cases hn : normalize_agg_func_to_lambda_function
                    (.callable (some "<lambda>") impl) with
                | error e => rw [hn] at h; simp [Except.map] at h
                | ok op =>
                    rw [hn] at h
                    cases hrec : agg_entries_for_list col fs (k + 1) with
                    | error e => rw [hrec] at h; simp [Except.map] at h
                    | ok l =>
                        rw [hrec] at h
                        simp only [Except.map] at h
                        cases h
                        simp [claim_list_aliases, claim_func_name,
                          generate_column_alias, ih (k + 1) l hrec]
              · have hb : ((some s2).getD "<lambda>" == "<lambda>") = false := by
                  simp [hs]
                simp only [agg_entries_for_list, is_anonymous_lambda, hb,
                  Bool.false_eq_true, ite_false] at h
                cases hn : normalize_agg_func_to_lambda_function
                    (.callable (some s2) impl) with
                | error e => rw [hn] at h; simp [Except.map] at h
                | ok op =>
                    rw [hn] at h
                    cases hrec : agg_entries_for_list col fs k with
                    | error e => rw [hrec] at h; simp [Except.map] at h
                    | ok l =>
                        rw [hrec] at h
                        simp only [Except.map] at h
                        cases h
                        simp [claim_list_aliases, claim_func_name,
                          generate_column_alias, hs, ih k l hrec]

/-- Helper: the aliases of a successfully constructed aggregates list follow
the claim-side alias rule column by column. -/
theorem construct_aggregate_entries_aliases :
    ∀ (normalized : List (String × AggValue)) (es : List AggListEntry),
      construct_aggregate_entries normalized = .ok es →
      es.map AggListEntry.alias_ =
        (normalized.map fun p => claim_aliases_for_column p.1 p.2).flatten := by
  intro normalized
  induction normalized with
  | nil =>
      intro es h
      simp only [construct_aggregate_entries] at h
      cases h
      rfl
  | cons p rest ih =>
      intro es h
      obtain ⟨col, v⟩ := p
      cases v with
      | fn f =>
          simp only [construct_aggregate_entries] at h
          cases hn : normalize_agg_func_to_lambda_function f with
          | error e => rw [hn] at h; simp [Except.map] at h
          | ok op =>
              rw [hn] at h
              cases hrec : construct_aggregate_entries rest with
              | error e => rw [hrec] at h; simp [Except.map] at h
              | ok tail =>
                  rw [hrec] at h
                  simp only [Except.map] at h
                  cases h
                  simp [claim_aliases_for_column, ih tail hrec]
      | listOf fs =>
          simp only [construct_aggregate_entries] at h
          cases hl : agg_entries_for_list col fs 0 with
          | error e => rw [hl] at h; simp [Except.map] at h
          | ok es1 =>
              rw [hl] at h
              cases hrec : construct_aggregate_entries rest with
              | error e => rw [hrec] at h; simp [Except.map] at h
              | ok tail =>
                  rw [hrec] at h
                  simp only [Except.map] at h
                  cases h
                  simp [claim_aliases_for_column, ih tail hrec,
                    agg_entries_for_list_aliases col fs 0 es1 hl]

/-- Counterexample for C3 as stated: `col1` maps to exactly one function and
is not a grouping key, so the claim predicts the alias `col1`; but the
specification value is a (one-element) list, and the code aliases it
`sum(col1)`. -/
theorem c3_counterexample_singleton_list :
    construct_aggregate_list c3_plain_frame
        (.mapping [("col1", .listOf [.str "sum"])]) =
      .ok [⟨"sum(col1)", "col1", .sum⟩] ∧ "sum(col1)" ≠ "col1" := by
  exact ⟨by rfl, by decide⟩

/-- C3 as amended: for every normalized aggregation specification, a column
whose entry is a single (non-list) function value is aliased by the column
name exactly, and a column whose entry is a list of functions — even a
one-element list, including the one-element list that normalization creates
for a grouping-key column given a single function — is aliased function-wise
as `<func-name>(<col-name>)`, with anonymous (nameless) functions aliased
`lambda_<k>(<col-name>)` where `k` is the 1-based occurrence counter of
anonymous functions per column. -/
theorem c3_amended_alias_rule
    (fr : PandasFrame) (input : AggInput)
    (normalized : List (String × AggValue)) (entries : List AggListEntry)
    (h1 : normalize_input_func_to_standard_dict input fr = .ok normalized)
    (h2 : construct_aggregate_list fr input = .ok entries) :
    entries.map AggListEntry.alias_ =
      (normalized.map fun p => claim_aliases_for_column p.1 p.2).flatten := by
  unfold construct_aggregate_list at h2
  rw [h1] at h2
  exact construct_aggregate_entries_aliases normalized entries h2

/-- Witness for C3 as amended: a mapping sending `col1` to `["sum", <lambda>]`
and `col2` to the numeric-library `minimum` yields the aliases `sum(col1)`,
`lambda_1(col1)` and `col2`, matching the claim-side rule applied to the
normalized specification. -/
theorem c3_amended_alias_rule_witness :
    ([⟨"sum(col1)", "col1", .sum⟩, ⟨"lambda_1(col1)", "col1", .count⟩,
      ⟨"col2", "col2", .min⟩] : List AggListEntry).map AggListEntry.alias_ =
      (([("col1",
          AggValue.listOf [.str "sum", .callable (some "<lambda>") .count]),
         ("col2", AggValue.fn (.ufunc "minimum"))]).map
        fun p => claim_aliases_for_column p.1 p.2).flatten :=
  c3_amended_alias_rule c3_witness_frame
    (.mapping
      [("col1", .listOf [.str "sum", .callable (some "<lambda>") .count]),
       ("col2", .fn (.ufunc "minimum"))])
    [("col1", AggValue.listOf [.str "sum", .callable (some "<lambda>") .count]),
     ("col2", AggValue.fn (.ufunc "minimum"))]
    [⟨"sum(col1)", "col1", .sum⟩, ⟨"lambda_1(col1)", "col1", .count⟩,
     ⟨"col2", "col2", .min⟩]
    (by rfl) (by rfl)

/-- Helper: a render that computes its output from the instance state and
returns the state unchanged yields the same output and state when run again
from its own post-state. -/
theorem render_core_state_pairing {E Q S : Type} (f : S → Except E Q) (s : S) :
    ((f s).map (fun q => (q, s))).bind
        (fun p => (f p.2).map (fun q => (q, p.2))) =
      (f s).map (fun q => (q, s)) := by
  cases h : f s <;> simp [h, Except.map, Except.bind]

/-- C7: for every instance state of the diff, expanding/window-aggregate and
aggregate compilers, rendering twice is idempotent — running `to_sql`
(respectively `to_pure`) again from the state left by the first run yields
the byte-identical output and the same state.  The only instance field any
render writes is diff's tuples cache, which is recomputed identically. -/
theorem c7_render_idempotent :
    (∀ (s : DiffState),
       (DiffFunction.to_sql s).bind (fun p => DiffFunction.to_sql p.2) =
         DiffFunction.to_sql s) ∧
    (∀ (sep : Nat → Bool → String) (s : DiffState),
       DiffFunction.to_pure sep (DiffFunction.to_pure sep s).2 =
         DiffFunction.to_pure sep s) ∧
    (∀ (s : WindowAggregateState),
       (PandasApiWindowAggregateFunction.to_sql s).bind
           (fun p => PandasApiWindowAggregateFunction.to_sql p.2) =
         PandasApiWindowAggregateFunction.to_sql s) ∧
    (∀ (sep : Nat → Bool → String) (s : WindowAggregateState),
       PandasApiWindowAggregateFunction.to_pure sep
           (PandasApiWindowAggregateFunction.to_pure sep s).2 =
         PandasApiWindowAggregateFunction.to_pure sep s) ∧
    (∀ (s : AggregateState),
       (AggregateFunction.to_sql s).bind
           (fun p => AggregateFunction.to_sql p.2) =
         AggregateFunction.to_sql s) ∧
    (∀ (sep : Nat → Bool → String) (s : AggregateState),
       AggregateFunction.to_pure sep (AggregateFunction.to_pure sep s).2 =
         AggregateFunction.to_pure sep s) := by
  refine ⟨?_, ?_, ?_, ?_, ?_, ?_⟩
  · intro s
    cases h : DiffFunction.to_sql_core s.frame s.periods <;>
      simp [DiffFunction.to_sql, h, Except.map, Except.bind]
  · intro sep s
    rfl
  · intro s
    exact render_core_state_pairing
      PandasApiWindowAggregateFunction.to_sql_core s
  · intro sep s
    rfl
  · intro s
    exact render_core_state_pairing AggregateFunction.to_sql_core s
  · intro sep s
    obtain ⟨fr, aggs⟩ := s
    cases fr <;> rfl

end Pylegend
